import Mathlib

/-!
Shallow embedding of the mutation/query resolvers of the sickFits backend
(src/src/resolvers/Mutation.js and the query resolver file src/unnamed/part_000).

The data store (Prisma) is modelled as an explicit record of entity lists that
each operation threads through; every resolver becomes a function
`DBState → args → DBState × Except Err α`, returning the post-state together
with either the resolver's result or the error it throws.  External
collaborators that are not part of this repository's sources — bcrypt
(hash/compare), the Stripe charge call, and JWT/cookie handling — are passed in
as function parameters or omitted when no claim depends on them.
-/

namespace SickFits

/-- Catalog item as stored by the data store (fields read by the resolvers). -/
structure Item where
  id : Nat
  title : String
  price : Nat
  description : String
  image : String
  largeImage : String
  userId : Nat
deriving DecidableEq, Repr

/-- User record: email, bcrypt password hash, permission strings and the
optional reset-token pair (`resetToken`/`resetTokenExpiry`). -/
structure User where
  id : Nat
  name : String
  email : String
  password : String
  permissions : List String
  resetToken : Option String
  resetTokenExpiry : Option Int
deriving DecidableEq, Repr

/-- Cart line: (user, item, quantity). -/
structure CartItem where
  id : Nat
  userId : Nat
  itemId : Nat
  quantity : Nat
deriving DecidableEq, Repr

/-- Denormalized copy of an Item created at checkout (the code spreads the
item fields, deletes `id`, and attaches the purchased quantity and user). -/
structure OrderItem where
  title : String
  price : Nat
  description : String
  image : String
  largeImage : String
  quantity : Nat
  userId : Nat
deriving DecidableEq, Repr

/-- Order created at checkout. -/
structure Order where
  id : Nat
  total : Nat
  charge : String
  items : List OrderItem
  userId : Nat
deriving DecidableEq, Repr

/-- Result of a successful Stripe charge as read by `createOrder`
(`charge.id` and `charge.amount`). -/
structure Charge where
  id : String
  amount : Nat
deriving DecidableEq, Repr

/-- The data store: entity tables plus the id the store hands to the next
created row. -/
structure DBState where
  users : List User
  items : List Item
  cartItems : List CartItem
  orders : List Order
  nextId : Nat
deriving DecidableEq, Repr

/-- Ambient request context: `ctx.request.userId` (from the session cookie)
and `ctx.request.user` (the cached user record populated by middleware). -/
structure Request where
  userId : Option Nat
  user : Option User
deriving DecidableEq, Repr

/-- One constructor per distinct `throw new Error(...)` site reached by the
embedded resolvers, plus the failure modes of the external collaborators:
`storeNotFound` for a Prisma update/create on a missing node, `nullDeref` for
a JavaScript TypeError when a property of a `null`/`undefined` query result is
read, `gatewayError` for a rejected/unreachable Stripe call, and
`duplicateEmail` for the store's unique-email constraint. -/
inductive Err where
  | notLoggedIn
  | notSignedIn
  | noSuchUser (email : String)
  | invalidPassword
  | passwordMismatch
  | invalidOrExpiredToken
  | noPermission
  | noCartItemFound
  | notYourItem
  | cantSeeOrder
  | gatewayError
  | storeNotFound
  | nullDeref
  | duplicateEmail
deriving DecidableEq, Repr

/-- JavaScript `String.prototype.toLowerCase`, modelled as character-wise
lowercasing of the string's characters. -/
def jsToLower (s : String) : String := String.mk (s.data.map Char.toLower)

/-- Modelled from the spec: `hasPermission` lives in src/utils.js, which is not
under src/.  Spec §4.1: PermissionGuard fails with an authorization error
unless the user's permission set intersects the required set. -/
def hasPermission (user : User) (permissionsNeeded : List String) : Except Err Unit :=
  if user.permissions.any (fun p => permissionsNeeded.contains p) then Except.ok ()
  else Except.error Err.noPermission

/-- The `users` query (query resolver file, lines 20-30): requires a session,
then calls `hasPermission(ctx.request.user, ["ADMIN", "PERISSIONUPDATE"])` —
the permission string is reproduced exactly as the source spells it — and on
success returns all users.  Reading `ctx.request.user.permissions` when the
cached user is absent is a JavaScript TypeError, modelled as `nullDeref`. -/
def usersQuery (db : DBState) (req : Request) : Except Err (List User) :=
  match req.userId with
  | none => Except.error Err.notLoggedIn
  | some _ =>
    match req.user with
    | none => Except.error Err.nullDeref
    | some u =>
      match hasPermission u ["ADMIN", "PERISSIONUPDATE"] with
      | Except.error e => Except.error e
      | Except.ok _ => Except.ok db.users

/-- The `order` query (query resolver file, lines 31-57): requires a session,
fetches the order by id, then throws unless the caller both owns the order and
has the ADMIN permission (`if (!ownsOrder || !hasPermissionToSeeOrder)`). -/
def orderQuery (db : DBState) (req : Request) (idArg : Nat) : Except Err Order :=
  match req.userId with
  | none => Except.error Err.notLoggedIn
  | some uid =>
    match db.orders.find? (fun o => o.id == idArg) with
    | none => Except.error Err.nullDeref
    | some ord =>
      match req.user with
      | none => Except.error Err.nullDeref
      | some caller =>
        let ownsOrder := ord.userId == uid
        let hasPermissionToSeeOrder := caller.permissions.contains "ADMIN"
        if !ownsOrder || !hasPermissionToSeeOrder then Except.error Err.cantSeeOrder
        else Except.ok ord

/-- The updatable fields of an Item (`args` minus `id` after
`delete updates.id`). -/
structure ItemUpdates where
  title : Option String := none
  description : Option String := none
  price : Option Nat := none
  image : Option String := none
  largeImage : Option String := none
deriving DecidableEq, Repr

/-- Apply a partial update to an item, field by field, as the store does. -/
def applyUpdates (it : Item) (u : ItemUpdates) : Item :=
  { it with
    title := u.title.getD it.title
    description := u.description.getD it.description
    price := u.price.getD it.price
    image := u.image.getD it.image
    largeImage := u.largeImage.getD it.largeImage }

/-- `updateItem` (Mutation.js lines 71-86): copies the args, removes the id,
and runs the store update — the resolver performs no session, ownership or
permission check of any kind; the request context is never consulted.  A
missing target id is the store's own "no node" error (`storeNotFound`). -/
def updateItem (db : DBState) (_req : Request) (idArg : Nat) (updates : ItemUpdates) :
    DBState × Except Err Item :=
  match db.items.find? (fun it => it.id == idArg) with
  | none => (db, Except.error Err.storeNotFound)
  | some it =>
    let it2 := applyUpdates it updates
    ({ db with items := db.items.map (fun j => if j.id == idArg then it2 else j) },
     Except.ok it2)

/-- `signup` (Mutation.js lines 103-128): lowercases the email, hashes the
password (bcrypt, passed in as `hash`), and creates the user with permission
set `["USER"]`.  The duplicate-email rejection is the store's unique
constraint on `email`; that constraint lives in the Prisma datamodel, which is
not under src/, and is modelled from the spec (§4.2: rejects if the email is
already registered).  Cookie issuance is a response side effect outside the
store and is not modelled. -/
def signup (db : DBState) (email password name : String) (hash : String → String) :
    DBState × Except Err User :=
  let emailLc := jsToLower email
  if db.users.any (fun u => u.email == emailLc) then (db, Except.error Err.duplicateEmail)
  else
    let user : User :=
      { id := db.nextId, name := name, email := emailLc, password := hash password,
        permissions := ["USER"], resetToken := none, resetTokenExpiry := none }
    ({ db with users := db.users ++ [user], nextId := db.nextId + 1 }, Except.ok user)

/-- `signin` (Mutation.js lines 129-149): looks the user up by email, throws
"No such user" if absent, compares the password with the stored hash via
bcrypt (`verify`), throws "Invalid password" on mismatch, else returns the
user. -/
def signin (db : DBState) (email password : String) (verify : String → String → Bool) :
    DBState × Except Err User :=
  match db.users.find? (fun u => u.email == email) with
  | none => (db, Except.error (Err.noSuchUser email))
  | some user =>
    if verify password user.password then (db, Except.ok user)
    else (db, Except.error Err.invalidPassword)

/-- `resetPassword` (Mutation.js lines 183-219): throws if the two passwords
differ; selects `users({ where: { resetToken, resetTokenExpiry_gte:
Date.now() - 3600000 } })` and takes the first match (array destructuring);
throws the invalid-or-expired error if none; otherwise stores the hashed new
password and nulls out the token pair, keyed by the matched user's email.
`now` is `Date.now()` at the call; the `- 3600000` is exactly what the source
writes. -/
def resetPassword (db : DBState) (now : Int) (resetTokenArg password confirmPassword : String)
    (hash : String → String) : DBState × Except Err User :=
  if password ≠ confirmPassword then (db, Except.error Err.passwordMismatch)
  else
    match db.users.filter (fun u =>
        u.resetToken == some resetTokenArg &&
        match u.resetTokenExpiry with
        | some e => decide (now - 3600000 ≤ e)
        | none => false) with
    | [] => (db, Except.error Err.invalidOrExpiredToken)
    | user :: _ =>
      let updated : User :=
        { user with password := hash password, resetToken := none, resetTokenExpiry := none }
      ({ db with users := db.users.map (fun u => if u.email == user.email then updated else u) },
       Except.ok updated)

/-- `updatePermissions` (Mutation.js lines 220-244): requires a session,
re-reads the logged-in user from the store, calls
`hasPermission(user, ["ADMIN", "PERMISSIONUPDATE"])`, then overwrites the
target user's whole permission set. -/
def updatePermissions (db : DBState) (req : Request) (userIdArg : Nat)
    (permissionsArg : List String) : DBState × Except Err User :=
  match req.userId with
  | none => (db, Except.error Err.notLoggedIn)
  | some uid =>
    match db.users.find? (fun u => u.id == uid) with
    | none => (db, Except.error Err.nullDeref)
    | some current =>
      match hasPermission current ["ADMIN", "PERMISSIONUPDATE"] with
      | Except.error e => (db, Except.error e)
      | Except.ok _ =>
        match db.users.find? (fun u => u.id == userIdArg) with
        | none => (db, Except.error Err.storeNotFound)
        | some target =>
          let updated : User := { target with permissions := permissionsArg }
          ({ db with
              users := db.users.map (fun u => if u.id == userIdArg then updated else u) },
           Except.ok updated)

/-- `addToCart` (Mutation.js lines 245-290): requires a session; queries the
caller's cart lines for the item and destructures the first; if one exists,
updates its quantity to `quantity + 1`; otherwise creates a CartItem
connecting user and item.  The create carries no explicit quantity: the
initial quantity 1 is the Prisma datamodel's default, which is not under src/
and is modelled from the spec (§4.4: creates a new CartItem with quantity 1). -/
def addToCart (db : DBState) (req : Request) (itemIdArg : Nat) :
    DBState × Except Err CartItem :=
  match req.userId with
  | none => (db, Except.error Err.notLoggedIn)
  | some uid =>
    match db.cartItems.filter (fun ci => ci.userId == uid && ci.itemId == itemIdArg) with
    | existing :: _ =>
      let updated : CartItem := { existing with quantity := existing.quantity + 1 }
      ({ db with
          cartItems := db.cartItems.map (fun ci => if ci.id == existing.id then updated else ci) },
       Except.ok updated)
    | [] =>
      let fresh : CartItem := { id := db.nextId, userId := uid, itemId := itemIdArg, quantity := 1 }
      ({ db with cartItems := db.cartItems ++ [fresh], nextId := db.nextId + 1 },
       Except.ok fresh)

/-- Join each cart line with its catalog item, as the nested
`cart { quantity item { ... } }` read in `createOrder` does; a dangling item
reference would be a `null` inside the joined cart and the subsequent
`cartItem.item.price` a TypeError, so the join as a whole is `none` then. -/
def joinCart (items : List Item) : List CartItem → Option (List (CartItem × Item))
  | [] => some []
  | ci :: rest =>
    match items.find? (fun it => it.id == ci.itemId), joinCart items rest with
    | some it, some tl => some ((ci, it) :: tl)
    | _, _ => none

/-- `amount = user.cart.reduce((tally, cartItem) => tally + cartItem.item.price
* cartItem.quantity, 0)` (Mutation.js lines 349-352). -/
def orderAmount (cart : List (CartItem × Item)) : Nat :=
  cart.foldl (fun tally p => tally + p.2.price * p.1.quantity) 0

/-- One denormalized order line from a joined cart line (Mutation.js lines
360-372): spread the item fields, delete the id, attach the purchased
quantity and the buying user. -/
def mkOrderItem (uid : Nat) (p : CartItem × Item) : OrderItem :=
  { title := p.2.title, price := p.2.price, description := p.2.description,
    image := p.2.image, largeImage := p.2.largeImage,
    quantity := p.1.quantity, userId := uid }

/-- `createOrder` (Mutation.js lines 318-391): requires a session; re-reads
the user and their cart (with item details) from the store; recomputes the
amount from that cart; charges Stripe (`gw amount "USD" token`, modelled as a
function to the optional charge result — `none` is a rejected or unreachable
gateway, which in the source throws out of the resolver before any store
mutation); then creates the Order with `total := charge.amount`,
`charge := charge.id` and one denormalized OrderItem per cart line, and
deletes the consumed cart lines by id (`deleteManyCartItems id_in`). -/
def createOrder (db : DBState) (req : Request) (token : String)
    (gw : Nat → String → String → Option Charge) : DBState × Except Err Order :=
  match req.userId with
  | none => (db, Except.error Err.notSignedIn)
  | some uid =>
    match db.users.find? (fun u => u.id == uid) with
    | none => (db, Except.error Err.nullDeref)
    | some _user =>
      match joinCart db.items (db.cartItems.filter (fun ci => ci.userId == uid)) with
      | none => (db, Except.error Err.nullDeref)
      | some cart =>
        let amount := orderAmount cart
        match gw amount "USD" token with
        | none => (db, Except.error Err.gatewayError)
        | some charge =>
          let orderItems : List OrderItem := cart.map (mkOrderItem uid)
          let ord : Order :=
            { id := db.nextId, total := charge.amount, charge := charge.id,
              items := orderItems, userId := uid }
          let consumedIds := cart.map (fun p => p.1.id)
          ({ db with
              orders := db.orders ++ [ord],
              cartItems := db.cartItems.filter (fun ci => !(consumedIds.contains ci.id)),
              nextId := db.nextId + 1 },
           Except.ok ord)


/-! ## Helper lemmas -/

/-- `find?` skips a prefix on which the predicate is everywhere false. -/
theorem find?_append_of_none {α : Type} (l₁ l₂ : List α) (p : α → Bool)
    (h : ∀ x ∈ l₁, p x = false) : (l₁ ++ l₂).find? p = l₂.find? p := by
  induction l₁ with
  | nil => rfl
  | cons a as ih =>
    rw [List.cons_append, List.find?_cons, h a (List.mem_cons_self a as)]
    exact ih (fun x hx => h x (List.mem_cons_of_mem a hx))

/-- A successful cart join covers exactly the cart lines it was given. -/
theorem joinCart_fst (items : List Item) :
    ∀ (l : List CartItem) (cart : List (CartItem × Item)),
      joinCart items l = some cart → cart.map Prod.fst = l := by
  intro l
  induction l with
  | nil =>
    intro cart h
    simp only [joinCart, Option.some.injEq] at h
    rw [← h]
    rfl
  | cons ci rest ih =>
    intro cart h
    simp only [joinCart] at h
    split at h
    · rename_i it tl hfind hrec
      rw [← Option.some.injEq] at h
      cases h
      simp [ih tl hrec]
    · exact absurd h (by simp)

/-- Inversion of a successful `createOrder`: the joined cart, the charge, the
created order and the post-state, exactly as the resolver builds them. -/
theorem createOrder_ok_inv (db : DBState) (req : Request) (token : String)
    (gw : Nat → String → String → Option Charge) (uid : Nat) (db1 : DBState) (ord : Order)
    (hauth : req.userId = some uid)
    (hok : createOrder db req token gw = (db1, Except.ok ord)) :
    ∃ cart charge,
      joinCart db.items (db.cartItems.filter (fun ci => ci.userId == uid)) = some cart ∧
      gw (orderAmount cart) "USD" token = some charge ∧
      ord = { id := db.nextId, total := charge.amount, charge := charge.id,
              items := cart.map (mkOrderItem uid), userId := uid } ∧
      db1 = { db with
              orders := db.orders ++ [ord],
              cartItems := db.cartItems.filter
                  (fun ci => !((cart.map (fun p => p.1.id)).contains ci.id)),
              nextId := db.nextId + 1 } := by
  simp only [createOrder, hauth] at hok
  split at hok
  · simp at hok
  · split at hok
    · simp at hok
    · rename_i cart hcart
      split at hok
      · simp at hok
      · rename_i charge hgw
        injection hok with hfst hsnd
        injection hsnd with hord
        subst hfst
        subst hord
        exact ⟨cart, charge, hcart, hgw, rfl, rfl⟩

/-! ## Concrete fixtures for witnesses and counterexamples -/

/-- A baseline user. -/
def uW : User :=
  { id := 1, name := "alice", email := "a@b.c", password := "h", permissions := ["USER"],
    resetToken := none, resetTokenExpiry := none }

/-- Catalog item, price 500 minor units. -/
def itW1 : Item :=
  { id := 1, title := "t1", price := 500, description := "d", image := "i",
    largeImage := "li", userId := 1 }

/-- Catalog item, price 300 minor units. -/
def itW2 : Item :=
  { id := 2, title := "t2", price := 300, description := "d", image := "i",
    largeImage := "li", userId := 1 }

/-- Store with user 1 holding a cart of 2 × item 1 and 1 × item 2 (the §8
scenario of the spec). -/
def dbW : DBState :=
  { users := [uW], items := [itW1, itW2],
    cartItems := [⟨11, 1, 1, 2⟩, ⟨12, 1, 2, 1⟩], orders := [], nextId := 13 }

/-- Request of user 1 with the cached user record in place. -/
def reqW : Request := { userId := some 1, user := some uW }

/-- An unauthenticated request: no session, no cached user. -/
def reqAnon : Request := { userId := none, user := none }

/-- Gateway that accepts every charge and confirms exactly the submitted
amount, as Stripe echoes it. -/
def gwEcho : Nat → String → String → Option Charge := fun a _ _ => some ⟨"ch", a⟩

/-- Gateway that rejects (or is unreachable for) every charge. -/
def gwDown : Nat → String → String → Option Charge := fun _ _ _ => none

/-- Store whose single user holds reset token "tok" expiring at
999999999000 ms. -/
def dbTok : DBState :=
  { users := [{ uW with resetToken := some "tok", resetTokenExpiry := some 999999999000 }],
    items := [], cartItems := [], orders := [], nextId := 2 }

/-- `dbTok` after the reset goes through with hash `"h" ++ ·`: password
replaced, token pair cleared. -/
def dbTokAfter : DBState :=
  { users := [{ uW with password := "hnpw" }],
    items := [], cartItems := [], orders := [], nextId := 2 }

/-! ## C1 — resetPassword and expired tokens -/

/-- Claim C1: the claim states that `resetPassword` matches a user only when
`expiry >= now`, so an expired token fails and leaves the password unchanged.
The source instead filters with `resetTokenExpiry_gte: Date.now() - 3600000`:
at `now = 1000000000000` the stored expiry 999999999000 lies 1000 ms in the
past, yet the user is matched, the password is replaced with the new hash and
a success is returned — the code contradicts the claim (and its own
"check if its expired" comment). -/
theorem resetPassword_accepts_expired_token :
    resetPassword dbTok 1000000000000 "tok" "npw" "npw" (fun s => String.append "h" s) =
      (dbTokAfter, Except.ok { uW with password := "hnpw" }) := rfl

/-! ## C2 — the users query guard vs updatePermissions -/

/-- A caller holding exactly the canonical PERMISSIONUPDATE capability. -/
def uPU : User :=
  { id := 1, name := "pat", email := "p@b.c", password := "h",
    permissions := ["PERMISSIONUPDATE"], resetToken := none, resetTokenExpiry := none }

/-- Store containing only `uPU`. -/
def dbPU : DBState := { users := [uPU], items := [], cartItems := [], orders := [], nextId := 2 }

/-- Request of `uPU` with the cached record in place. -/
def reqPU : Request := { userId := some 1, user := some uPU }

/-- Claim C2: the claim states the users listing is gated by the same guard as
`updatePermissions` — permission set intersecting {ADMIN, PERMISSIONUPDATE} —
so a caller holding PERMISSIONUPDATE but not ADMIN may list users.  The source
guard of the users query instead names "PERISSIONUPDATE" (a typo the spec
itself flags as non-authoritative), so that very caller is rejected with the
permission error, while the guard of `updatePermissions` accepts them. -/
theorem users_query_rejects_canonical_permission :
    usersQuery dbPU reqPU = Except.error Err.noPermission ∧
    (updatePermissions dbPU reqPU 1 ["USER", "PERMISSIONUPDATE"]).2 =
      Except.ok { uPU with permissions := ["USER", "PERMISSIONUPDATE"] } :=
  ⟨rfl, rfl⟩

/-! ## C3 — updateItem performs no check at all -/

/-- Claim C3 counterexample: an unauthenticated caller (no session, no cached
user) calls `updateItem` on item 1 with a new price, and the write goes
through: the store's item now carries price 999 and the resolver reports
success — refuting "an unauthenticated or unauthorized caller can never
modify an item" at this input. -/
theorem updateItem_unauthenticated_writes :
    updateItem dbW reqAnon 1 { price := some 999 } =
      ({ dbW with items := [{ itW1 with price := 999 }, itW2] },
       Except.ok { itW1 with price := 999 }) := rfl

/-- Claim C3 (amended): `updateItem` performs no session, ownership or
permission check: for every request context — authenticated or not — if the
target item exists, the update is applied to the store and returned; the
request context never influences the outcome. -/
theorem updateItem_no_precondition (db : DBState) (req : Request) (idArg : Nat)
    (updates : ItemUpdates) (it : Item)
    (hfind : db.items.find? (fun j => j.id == idArg) = some it) :
    updateItem db req idArg updates =
      ({ db with
          items := db.items.map (fun j => if j.id == idArg then applyUpdates it updates else j) },
       Except.ok (applyUpdates it updates)) := by
  simp [updateItem, hfind]

/-- Witness for C3 (amended) at the unauthenticated request `reqAnon`. -/
theorem updateItem_no_precondition_witness :
    dbW.items.find? (fun j => j.id == 1) = some itW1 ∧
    updateItem dbW reqAnon 1 { title := some "x" } =
      ({ dbW with
          items := dbW.items.map
            (fun j => if j.id == 1 then applyUpdates itW1 { title := some "x" } else j) },
       Except.ok (applyUpdates itW1 { title := some "x" })) :=
  ⟨rfl, updateItem_no_precondition dbW reqAnon 1 { title := some "x" } itW1 rfl⟩

/-! ## C9 — signup/signin round trip -/

/-- The user record `signup` creates for a given store, normalized email,
password and profile name (abbreviation of the record built in `signup`). -/
def signupUser (db : DBState) (emailLc password name : String) (hash : String → String) : User :=
  { id := db.nextId, name := name, email := emailLc, password := hash password,
    permissions := ["USER"], resetToken := none, resetTokenExpiry := none }

/-- Claim C9: signing up with `Email@Test.com` stores the case-normalized
email `email@test.com`, and a subsequent `signin` with `email@test.com` and
the original plaintext password succeeds — the stored hash verifies against
the plaintext via bcrypt (`verify`/`hash` with the bcrypt round-trip
property `hbc`) — and returns that same user.  `hfresh` says the normalized
email is not yet registered. -/
theorem signup_signin_roundtrip (db : DBState) (password name : String)
    (hash : String → String) (verify : String → String → Bool)
    (hfresh : ∀ u ∈ db.users, u.email ≠ "email@test.com")
    (hbc : verify password (hash password) = true) :
    ∃ u, (signup db "Email@Test.com" password name hash).2 = Except.ok u ∧
      u.email = "email@test.com" ∧ u.password = hash password ∧
      (signin (signup db "Email@Test.com" password name hash).1
        "email@test.com" password verify).2 = Except.ok u := by
  have hlc : jsToLower "Email@Test.com" = "email@test.com" := rfl
  have hany : db.users.any (fun u => u.email == jsToLower "Email@Test.com") = false := by
    rw [List.any_eq_false]
    intro u hu
    rw [hlc]
    simp [hfresh u hu]
  have hsu : signup db "Email@Test.com" password name hash =
      ({ db with
          users := db.users ++ [signupUser db "email@test.com" password name hash],
          nextId := db.nextId + 1 },
       Except.ok (signupUser db "email@test.com" password name hash)) := by
    rw [hlc] at hany
    simp only [signup, hlc, hany, Bool.false_eq_true, if_false]
    rfl
  refine ⟨signupUser db "email@test.com" password name hash, by rw [hsu], rfl, rfl, ?_⟩
  rw [hsu]
  simp only [signin]
  rw [find?_append_of_none _ _ _ (fun x hx => by simpa using hfresh x hx)]
  simp [signupUser, hbc]

/-- An empty store. -/
def dbEmpty : DBState := { users := [], items := [], cartItems := [], orders := [], nextId := 1 }

/-- Witness for C9 on the empty store, with hash the identity and verify the
equality check (which satisfies the bcrypt round-trip property). -/
theorem signup_signin_roundtrip_witness :
    ∃ u, (signup dbEmpty "Email@Test.com" "pw" "n" (fun s => s)).2 = Except.ok u ∧
      u.email = "email@test.com" ∧ u.password = (fun s : String => s) "pw" ∧
      (signin (signup dbEmpty "Email@Test.com" "pw" "n" (fun s => s)).1
        "email@test.com" "pw" (fun p h => p == h)).2 = Except.ok u :=
  signup_signin_roundtrip dbEmpty "pw" "n" (fun s => s) (fun p h => p == h)
    (by intro u hu; simp [dbEmpty] at hu) (by decide)

/-! ## C10 — single-order query needs ownership AND the ADMIN permission -/

/-- Claim C10: for an authenticated call to the `order` query on an existing
order, the order is returned exactly when the caller owns the order and their
cached permission set contains ADMIN; if either part fails, the resolver
throws the visibility error instead (`if (!ownsOrder ||
!hasPermissionToSeeOrder)`). -/
theorem order_query_owner_and_admin (db : DBState) (req : Request) (idArg uid : Nat)
    (caller : User) (ord : Order)
    (hauth : req.userId = some uid) (hcaller : req.user = some caller)
    (hord : db.orders.find? (fun o => o.id == idArg) = some ord) :
    (ord.userId = uid ∧ "ADMIN" ∈ caller.permissions →
      orderQuery db req idArg = Except.ok ord) ∧
    (¬ (ord.userId = uid ∧ "ADMIN" ∈ caller.permissions) →
      orderQuery db req idArg = Except.error Err.cantSeeOrder) := by
  constructor
  · rintro ⟨h1, h2⟩
    simp [orderQuery, hauth, hord, hcaller, h1, h2]
  · intro hneg
    by_cases h1 : ord.userId = uid
    · have h2 : "ADMIN" ∉ caller.permissions := fun h2 => hneg ⟨h1, h2⟩
      simp [orderQuery, hauth, hord, hcaller, h1, h2]
    · simp [orderQuery, hauth, hord, hcaller, h1]

/-- A user holding ADMIN. -/
def uAdmin : User :=
  { id := 1, name := "root", email := "r@b.c", password := "h",
    permissions := ["USER", "ADMIN"], resetToken := none, resetTokenExpiry := none }

/-- An order owned by user 1. -/
def ordO : Order := { id := 5, total := 100, charge := "c", items := [], userId := 1 }

/-- Store containing `uAdmin` and their order `ordO`. -/
def dbO : DBState := { users := [uAdmin], items := [], cartItems := [], orders := [ordO], nextId := 6 }

/-- Witness for C10: the owning ADMIN caller on order 5. -/
theorem order_query_owner_and_admin_witness :
    (ordO.userId = 1 ∧ "ADMIN" ∈ uAdmin.permissions →
      orderQuery dbO { userId := some 1, user := some uAdmin } 5 = Except.ok ordO) ∧
    (¬ (ordO.userId = 1 ∧ "ADMIN" ∈ uAdmin.permissions) →
      orderQuery dbO { userId := some 1, user := some uAdmin } 5 =
        Except.error Err.cantSeeOrder) :=
  order_query_owner_and_admin dbO { userId := some 1, user := some uAdmin } 5 1 uAdmin ordO
    rfl rfl rfl

/-! ## C7 — addToCart upsert: two adds, one row, quantity 2 -/

/-- Claim C7: for an authenticated caller with no existing cart line for the
item (`hnone`) and a store whose next id is fresh (`hfresh`), a first
`addToCart` creates a single CartItem with quantity 1 — it is then the only
line for the (user, item) pair — and a second `addToCart` increments that very
row to quantity 2, leaving exactly one line for the pair and never two. -/
theorem addToCart_twice_single_row (db : DBState) (req : Request) (uid itemIdArg : Nat)
    (hauth : req.userId = some uid)
    (hnone : db.cartItems.filter (fun ci => ci.userId == uid && ci.itemId == itemIdArg) = [])
    (hfresh : ∀ ci ∈ db.cartItems, ci.id ≠ db.nextId) :
    ∃ ci1 ci2,
      (addToCart db req itemIdArg).2 = Except.ok ci1 ∧ ci1.quantity = 1 ∧
      ((addToCart db req itemIdArg).1).cartItems.filter
        (fun ci => ci.userId == uid && ci.itemId == itemIdArg) = [ci1] ∧
      (addToCart (addToCart db req itemIdArg).1 req itemIdArg).2 = Except.ok ci2 ∧
      ci2.id = ci1.id ∧ ci2.quantity = 2 ∧
      ((addToCart (addToCart db req itemIdArg).1 req itemIdArg).1).cartItems.filter
        (fun ci => ci.userId == uid && ci.itemId == itemIdArg) = [ci2] := by
  have h1 : addToCart db req itemIdArg =
      ({ db with
          cartItems := db.cartItems ++ [⟨db.nextId, uid, itemIdArg, 1⟩],
          nextId := db.nextId + 1 },
       Except.ok ⟨db.nextId, uid, itemIdArg, 1⟩) := by
    simp only [addToCart, hauth, hnone]
  have hfil1 : (db.cartItems ++ [(⟨db.nextId, uid, itemIdArg, 1⟩ : CartItem)]).filter
      (fun ci => ci.userId == uid && ci.itemId == itemIdArg) =
      [⟨db.nextId, uid, itemIdArg, 1⟩] := by
    rw [List.filter_append, hnone]
    simp
  have hmapid : db.cartItems.map
      (fun ci => if ci.id == db.nextId then (⟨db.nextId, uid, itemIdArg, 2⟩ : CartItem) else ci) =
      db.cartItems := by
    have := List.map_congr_left (l := db.cartItems)
      (f := fun ci => if ci.id == db.nextId then (⟨db.nextId, uid, itemIdArg, 2⟩ : CartItem) else ci)
      (g := fun ci => ci)
      (fun ci hci => by simp [hfresh ci hci])
    rw [this]
    simp
  have h2 : addToCart (addToCart db req itemIdArg).1 req itemIdArg =
      ({ db with
          cartItems := db.cartItems ++ [⟨db.nextId, uid, itemIdArg, 2⟩],
          nextId := db.nextId + 1 },
       Except.ok ⟨db.nextId, uid, itemIdArg, 2⟩) := by
    rw [h1]
    simp only [addToCart, hauth, hfil1]
    rw [List.map_append, hmapid]
    simp
  refine ⟨⟨db.nextId, uid, itemIdArg, 1⟩, ⟨db.nextId, uid, itemIdArg, 2⟩,
    by rw [h1], rfl, by rw [h1]; exact hfil1, by rw [h2], rfl, rfl, ?_⟩
  rw [h2]
  show (db.cartItems ++ [(⟨db.nextId, uid, itemIdArg, 2⟩ : CartItem)]).filter _ = _
  rw [List.filter_append, hnone]
  simp

/-- Witness for C7: user 1 adds item 99 twice to the §8 cart store. -/
theorem addToCart_twice_single_row_witness :
    ∃ ci1 ci2,
      (addToCart dbW reqW 99).2 = Except.ok ci1 ∧ ci1.quantity = 1 ∧
      ((addToCart dbW reqW 99).1).cartItems.filter
        (fun ci => ci.userId == 1 && ci.itemId == 99) = [ci1] ∧
      (addToCart (addToCart dbW reqW 99).1 reqW 99).2 = Except.ok ci2 ∧
      ci2.id = ci1.id ∧ ci2.quantity = 2 ∧
      ((addToCart (addToCart dbW reqW 99).1 reqW 99).1).cartItems.filter
        (fun ci => ci.userId == 1 && ci.itemId == 99) = [ci2] :=
  addToCart_twice_single_row dbW reqW 1 99 rfl (by decide) (by decide)

/-! ## C8 — reset tokens are single-use -/

/-- Claim C8: redemption is single-use.  If a `resetPassword` call succeeds
(`hok`), the matched user's token pair is nulled out, so a second call
presenting the same token string selects no user and fails with the
invalid-or-expired error.  `huniq` states the data-model fact that a reset
token is owned by (the email of) at most one user (spec §3: a ResetToken is
owned by exactly one User). -/
theorem resetPassword_single_use (db : DBState) (now : Int) (tok pw : String)
    (hash : String → String) (db1 : DBState) (u : User)
    (huniq : ∀ v ∈ db.users, ∀ w ∈ db.users,
      v.resetToken = some tok → w.resetToken = some tok → v.email = w.email)
    (hok : resetPassword db now tok pw pw hash = (db1, Except.ok u))
    (now2 : Int) (pw2 : String) (hash2 : String → String) :
    (resetPassword db1 now2 tok pw2 pw2 hash2).2 = Except.error Err.invalidOrExpiredToken := by
  unfold resetPassword at hok
  rw [if_neg (fun h => h rfl)] at hok
  cases hF : db.users.filter (fun v =>
      v.resetToken == some tok &&
      match v.resetTokenExpiry with
      | some e => decide (now - 3600000 ≤ e)
      | none => false) with
  | nil => rw [hF] at hok; simp at hok
  | cons m rest =>
    rw [hF] at hok
    injection hok with hfst hsnd
    have hmF : m ∈ db.users.filter (fun v =>
        v.resetToken == some tok &&
        match v.resetTokenExpiry with
        | some e => decide (now - 3600000 ≤ e)
        | none => false) := by
      rw [hF]; exact List.mem_cons_self m rest
    obtain ⟨hmem, hpred⟩ := List.mem_filter.mp hmF
    rw [Bool.and_eq_true] at hpred
    have htok : m.resetToken = some tok := by
      have := hpred.1
      rwa [beq_iff_eq] at this
    have hempty : db1.users.filter (fun v =>
        v.resetToken == some tok &&
        match v.resetTokenExpiry with
        | some e => decide (now2 - 3600000 ≤ e)
        | none => false) = [] := by
      rw [← hfst]
      rw [List.filter_eq_nil_iff]
      intro w hw
      obtain ⟨v, hv, hfv⟩ := List.mem_map.mp hw
      by_cases he : v.email == m.email
      · rw [if_pos he] at hfv
        rw [← hfv]
        simp
      · rw [if_neg he] at hfv
        rw [← hfv]
        intro hcontra
        rw [Bool.and_eq_true] at hcontra
        have hvtok : v.resetToken = some tok := by
          have := hcontra.1
          rwa [beq_iff_eq] at this
        exact he (by rw [beq_iff_eq]; exact huniq v hv m hmem hvtok htok)
    unfold resetPassword
    rw [if_neg (fun h => h rfl), hempty]

/-- Witness for C8: after the successful reset on `dbTok`, a later call with
the same token string fails. -/
theorem resetPassword_single_use_witness :
    (resetPassword dbTokAfter 2000000000000 "tok" "x" "x" (fun s => s)).2 =
      Except.error Err.invalidOrExpiredToken :=
  resetPassword_single_use dbTok 1000000000000 "tok" "npw" (fun s => String.append "h" s)
    dbTokAfter { uW with password := "hnpw" } (by decide) rfl 2000000000000 "x" (fun s => s)

/-! ## C4 — the order total is the recomputed cart total -/

/-- Claim C4: on every successful `createOrder`, the persisted total equals
the gateway-confirmed charged amount (`charge.amount`) and equals
`Σ price × quantity` over the cart as freshly read from the store at charge
time.  The client supplies only the opaque payment token — `createOrder` has
no amount argument at all, and the amount submitted to the gateway is
recomputed from the store.  `hecho` is the gateway contract: a successful
charge confirms the submitted amount. -/
theorem createOrder_total_recomputed (db : DBState) (req : Request) (token : String)
    (gw : Nat → String → String → Option Charge) (uid : Nat) (db1 : DBState) (ord : Order)
    (hauth : req.userId = some uid)
    (hecho : ∀ a c s ch, gw a c s = some ch → ch.amount = a)
    (hok : createOrder db req token gw = (db1, Except.ok ord)) :
    ∃ cart, joinCart db.items (db.cartItems.filter (fun ci => ci.userId == uid)) = some cart ∧
      ∃ ch, gw (orderAmount cart) "USD" token = some ch ∧
        ord.total = ch.amount ∧ ord.total = orderAmount cart := by
  obtain ⟨cart, charge, hcart, hgw, hord, _⟩ :=
    createOrder_ok_inv db req token gw uid db1 ord hauth hok
  exact ⟨cart, hcart, charge, hgw, by rw [hord], by rw [hord]; exact hecho _ _ _ _ hgw⟩

/-- The §8 scenario order: 2 × 500 + 1 × 300 = 1300 minor units. -/
def ordW : Order :=
  { id := 13, total := 1300, charge := "ch",
    items := [⟨"t1", 500, "d", "i", "li", 2, 1⟩, ⟨"t2", 300, "d", "i", "li", 1, 1⟩],
    userId := 1 }

/-- `dbW` after the successful checkout: cart cleared, order recorded. -/
def dbWAfter : DBState :=
  { users := [uW], items := [itW1, itW2], cartItems := [], orders := [ordW], nextId := 14 }

/-- Witness for C4 on the §8 scenario store with the echoing gateway. -/
theorem createOrder_total_recomputed_witness :
    ∃ cart, joinCart dbW.items (dbW.cartItems.filter (fun ci => ci.userId == 1)) = some cart ∧
      ∃ ch, gwEcho (orderAmount cart) "USD" "tk" = some ch ∧
        ordW.total = ch.amount ∧ ordW.total = orderAmount cart :=
  createOrder_total_recomputed dbW reqW "tk" gwEcho 1 dbWAfter ordW rfl
    (fun a c s ch h => by injection h with h2; exact h2 ▸ rfl) rfl

/-! ## C5 — gateway failure leaves the store untouched -/

/-- Claim C5: when the gateway rejects or is unreachable (`hfail`: the charge
call returns no charge), `createOrder` raises the gateway error and the
post-state is exactly the pre-state — no order is created and the caller's
cart lines are exactly as they were.  `huser`/`hcart` say the signed-in user
exists and their cart read succeeds, so execution reaches the charge step. -/
theorem createOrder_gateway_failure_no_mutation (db : DBState) (req : Request) (token : String)
    (gw : Nat → String → String → Option Charge) (uid : Nat) (user : User)
    (cart : List (CartItem × Item))
    (hauth : req.userId = some uid)
    (huser : db.users.find? (fun v => v.id == uid) = some user)
    (hcart : joinCart db.items (db.cartItems.filter (fun ci => ci.userId == uid)) = some cart)
    (hfail : gw (orderAmount cart) "USD" token = none) :
    createOrder db req token gw = (db, Except.error Err.gatewayError) := by
  simp only [createOrder, hauth, huser, hcart, hfail]

/-- Witness for C5 on the §8 scenario store with the unreachable gateway. -/
theorem createOrder_gateway_failure_no_mutation_witness :
    createOrder dbW reqW "tk" gwDown = (dbW, Except.error Err.gatewayError) :=
  createOrder_gateway_failure_no_mutation dbW reqW "tk" gwDown 1 uW
    [(⟨11, 1, 1, 2⟩, itW1), (⟨12, 1, 2, 1⟩, itW2)] rfl rfl rfl rfl

/-! ## C6 — successful checkout empties the cart, one OrderItem per line -/

/-- Claim C6: after every successful `createOrder`, the caller's cart in the
post-state is empty; the deleted rows are exactly those whose ids were read at
checkout (`id_in` over the joined cart); and the created Order carries one
denormalized OrderItem per consumed cart line, whose quantities match the
pre-checkout cart lines exactly, in order. -/
theorem createOrder_clears_cart (db : DBState) (req : Request) (token : String)
    (gw : Nat → String → String → Option Charge) (uid : Nat) (db1 : DBState) (ord : Order)
    (hauth : req.userId = some uid)
    (hok : createOrder db req token gw = (db1, Except.ok ord)) :
    db1.cartItems.filter (fun ci => ci.userId == uid) = [] ∧
    (∃ cart, joinCart db.items (db.cartItems.filter (fun ci => ci.userId == uid)) = some cart ∧
      cart.map Prod.fst = db.cartItems.filter (fun ci => ci.userId == uid) ∧
      db1.cartItems = db.cartItems.filter
        (fun ci => !((cart.map (fun p => p.1.id)).contains ci.id)) ∧
      ord.items = cart.map (mkOrderItem uid)) ∧
    ord.items.map (fun oi => oi.quantity) =
      (db.cartItems.filter (fun ci => ci.userId == uid)).map (fun ci => ci.quantity) := by
  obtain ⟨cart, charge, hcart, hgw, hord, hdb1⟩ :=
    createOrder_ok_inv db req token gw uid db1 ord hauth hok
  have hfst := joinCart_fst db.items _ cart hcart
  refine ⟨?_, ⟨cart, hcart, hfst, by rw [hdb1], by rw [hord]⟩, ?_⟩
  · rw [hdb1]
    show (db.cartItems.filter _).filter _ = []
    rw [List.filter_filter, List.filter_eq_nil_iff]
    intro ci hci hcontra
    rw [Bool.and_eq_true] at hcontra
    obtain ⟨hp, hq⟩ := hcontra
    have hmem : ci ∈ cart.map Prod.fst := by
      rw [hfst]
      exact List.mem_filter.mpr ⟨hci, hp⟩
    have hmemid : ci.id ∈ cart.map (fun p => p.1.id) := by
      have := List.mem_map_of_mem (fun c : CartItem => c.id) hmem
      rwa [List.map_map] at this
    have hcont : (cart.map (fun p => p.1.id)).contains ci.id = true :=
      List.elem_eq_true_of_mem hmemid
    rw [hcont] at hq
    simp at hq
  · rw [hord]
    show (cart.map (mkOrderItem uid)).map (fun oi => oi.quantity) = _
    rw [List.map_map, ← hfst, List.map_map]
    rfl

/-- Witness for C6 on the §8 scenario store: checkout of 2 × item 1 and
1 × item 2 leaves the cart empty and records matching order lines. -/
theorem createOrder_clears_cart_witness :
    dbWAfter.cartItems.filter (fun ci => ci.userId == 1) = [] ∧
    (∃ cart, joinCart dbW.items (dbW.cartItems.filter (fun ci => ci.userId == 1)) = some cart ∧
      cart.map Prod.fst = dbW.cartItems.filter (fun ci => ci.userId == 1) ∧
      dbWAfter.cartItems = dbW.cartItems.filter
        (fun ci => !((cart.map (fun p => p.1.id)).contains ci.id)) ∧
      ordW.items = cart.map (mkOrderItem 1)) ∧
    ordW.items.map (fun oi => oi.quantity) =
      (dbW.cartItems.filter (fun ci => ci.userId == 1)).map (fun ci => ci.quantity) :=
  createOrder_clears_cart dbW reqW "tk" gwEcho 1 dbWAfter ordW rfl rfl

end SickFits
